import Mathlib

/-!
Verification of the feature-engineering and submission-formatting pipeline
of the BikeSharingSystem repository (notebook
`src/bike_sharing_demand_solution.ipynb`).

The pipeline is a pure per-row transformation: `feature_engineering`
derives calendar and weather columns from each raw row, and the
submission cells build a `{datetime, count}` table from timestamps and
model predictions, clipping each prediction at 0.  Floating-point inputs
are embedded as exact rationals (`Rat`): every operation the claims
exercise (comparison, `max`, multiplication) is exact on the values
involved, so no rounding behaviour is lost.
-/

namespace BikeSharing

/-- A parsed timestamp at hourly resolution, as produced by
`pd.to_datetime` on the dataset's `datetime` column.  Fields mirror the
accessors the notebook uses (`dt.hour`, `dt.day`, `dt.month`, `dt.year`);
the day-of-week accessor is the function `dayOfWeek` below.  Dates are
assumed valid Gregorian dates with `year ≥ 1900`. -/
structure Timestamp where
  year : Nat
  month : Nat
  day : Nat
  hour : Nat
deriving Repr, DecidableEq

/-- Gregorian leap-year test. -/
def isLeapYear (y : Nat) : Bool :=
  (y % 4 == 0 && y % 100 != 0) || y % 400 == 0

/-- Number of leap years in `[1, y]`. -/
def leapYearsUpTo (y : Nat) : Nat :=
  y / 4 - y / 100 + y / 400

/-- Days in the months strictly before month `m` of a common year. -/
def monthOffset : Nat → Nat
  | 1 => 0 | 2 => 31 | 3 => 59 | 4 => 90 | 5 => 120 | 6 => 151
  | 7 => 181 | 8 => 212 | 9 => 243 | 10 => 273 | 11 => 304 | 12 => 334
  | _ => 0

/-- Days elapsed since 1900-01-01 (which was a Monday). -/
def daysSince1900 (t : Timestamp) : Nat :=
  365 * (t.year - 1900) + (leapYearsUpTo (t.year - 1) - leapYearsUpTo 1899)
    + monthOffset t.month
    + (if isLeapYear t.year ∧ 3 ≤ t.month then 1 else 0)
    + (t.day - 1)

/-- Embeds pandas `Series.dt.dayofweek`: Monday = 0 … Sunday = 6. -/
def dayOfWeek (t : Timestamp) : Nat :=
  daysSince1900 t % 7

/-- One row of the tabular data.  Raw fields are always present; derived
columns are `Option`-valued, `none` modelling the column being absent
before `feature_engineering` assigns it.  For the three bin columns the
inner `Option` models the null (NaN) category that `pd.cut` produces for
out-of-range values. -/
structure Row where
  datetime : Timestamp
  season : Int
  holiday : Int
  workingday : Int
  weather : Int
  temp : Rat
  atemp : Rat
  humidity : Rat
  windspeed : Rat
  casual : Option Int := none
  registered : Option Int := none
  count : Option Int := none
  hour : Option Nat := none
  day : Option Nat := none
  month : Option Nat := none
  year : Option Nat := none
  dayofweek : Option Nat := none
  time_of_day : Option String := none
  is_rush_hour : Option Nat := none
  is_weekend : Option Nat := none
  weather_season : Option String := none
  temp_bin : Option (Option String) := none
  humidity_bin : Option (Option String) := none
  windspeed_bin : Option (Option String) := none
  temp_humidity : Option Rat := none
  temp_windspeed : Option Rat := none
deriving Repr, DecidableEq

/-- Embeds `pd.cut(x, bins=bs, labels=ls)` with pandas defaults
(`right=True`, `include_lowest=False`): the element is labelled `ls[i]`
iff `bs[i] < x ≤ bs[i+1]`; a value at or below the first boundary, or
above the last, gets the null category (`none`). -/
def cut (x : Rat) : List Rat → List String → Option String
  | lo :: hi :: rest, lab :: labs =>
      if lo < x ∧ x ≤ hi then some lab else cut x (hi :: rest) labs
  | _, _ => none

/-- The `bins=` argument of the `temp_bin` assignment. -/
def tempBins : List Rat := [-20, 0, 10, 20, 30, 50]

/-- The `labels=` argument of the `temp_bin` assignment. -/
def tempLabels : List String := ["very_cold", "cold", "mild", "warm", "hot"]

/-- The `bins=` argument of the `humidity_bin` assignment. -/
def humidityBins : List Rat := [0, 25, 50, 75, 100]

/-- The `bins=` argument of the `windspeed_bin` assignment. -/
def windspeedBins : List Rat := [0, 10, 20, 30, 100]

/-- The `labels=` argument shared by `humidity_bin` and `windspeed_bin`. -/
def levelLabels : List String := ["low", "medium", "high", "very_high"]

/-- The `time_of_day` lambda of the source:
morning [6,12), afternoon [12,18), evening [18,22), night otherwise. -/
def timeOfDay (h : Nat) : String :=
  if 6 ≤ h ∧ h < 12 then "morning"
  else if 12 ≤ h ∧ h < 18 then "afternoon"
  else if 18 ≤ h ∧ h < 22 then "evening"
  else "night"

/-- Row-level embedding of the body of `feature_engineering`.  The
source assigns whole columns one after another; every assigned column is
an elementwise function of the raw columns (or of columns assigned
earlier in the same body, here the `let`-bound values), so the
column-at-a-time program is the per-row map of this function.  Each
`let` mirrors one column assignment, in source order. -/
def enrichRow (r : Row) : Row :=
  let h : Nat := r.datetime.hour
  let dow : Nat := dayOfWeek r.datetime
  { r with
    hour := some h
    day := some r.datetime.day
    month := some r.datetime.month
    year := some r.datetime.year
    dayofweek := some dow
    time_of_day := some (timeOfDay h)
    is_rush_hour :=
      some (if ((7 ≤ h ∧ h ≤ 9) ∨ (16 ≤ h ∧ h ≤ 19)) ∧ dow < 5 then 1 else 0)
    is_weekend := some (if 5 ≤ dow then 1 else 0)
    weather_season := some (toString r.weather ++ "_" ++ toString r.season)
    temp_bin := some (cut r.temp tempBins tempLabels)
    humidity_bin := some (cut r.humidity humidityBins levelLabels)
    windspeed_bin := some (cut r.windspeed windspeedBins levelLabels)
    temp_humidity := some (r.temp * r.humidity)
    temp_windspeed := some (r.temp * r.windspeed) }

/-- `feature_engineering` of the source, the `enrich` operation of the
spec: per-row derivation over the whole batch. -/
def feature_engineering (df : List Row) : List Row :=
  df.map enrichRow

/-- Call-level embedding of `feature_engineering`: the body's first
statement `df = df.copy()` rebinds the parameter to a fresh deep copy,
so every subsequent in-place column assignment mutates the copy only.
The pair is (the caller's dataframe as observable after the call, the
returned dataframe). -/
def feature_engineering_call (df : List Row) : List Row × List Row :=
  let copied := df
  (df, feature_engineering copied)

/-- One row of a submission table.  Both fields are `Option`-valued
because a dataframe built from two positionally-indexed series of
different lengths pads the shorter column with NaN. -/
structure SubmissionRow where
  datetime : Option String
  count : Option Rat
deriving Repr, DecidableEq

/-- Embeds the submission-construction cells of the notebook:
`pd.DataFrame({datetime: ts, count: preds})` followed by
`count.clip(lower=0)`.  Both inputs are series on default positional
indexes, so the dataframe aligns them by position with `max n m` rows,
padding a shorter column with NaN (`none`); `clip` maps each present
prediction `p` to `max 0 p` and leaves missing entries missing. -/
def format_submission (timestamps : List String) (predictions : List Rat) :
    List SubmissionRow :=
  (List.range (max timestamps.length predictions.length)).map fun i =>
    { datetime := timestamps[i]?
      count := (predictions[i]?).map fun p => max 0 p }

/-- The binning convention in the words of the spec: interval boundaries
right-open except the final bin, which is closed at both its bounds'
reading of the spec sentence ("right-open except the final bin, which is
closed").  Written from the spec, to be compared with `cut`, the
convention the source actually uses. -/
def cutRightOpenExceptLast (x : Rat) : List Rat → List String → Option String
  | [lo, hi], [lab] => if lo ≤ x ∧ x ≤ hi then some lab else none
  | lo :: hi :: rest, lab :: labs =>
      if lo ≤ x ∧ x < hi then some lab else cutRightOpenExceptLast x (hi :: rest) labs
  | _, _ => none

/-- The raw fields of a row, as a tuple. -/
def rawProj (r : Row) :=
  (r.datetime, r.season, r.holiday, r.workingday, r.weather, r.temp,
   r.atemp, r.humidity, r.windspeed, r.casual, r.registered, r.count)

/-- Forgets every derived column of a row, keeping the raw fields. -/
def stripDerived (r : Row) : Row :=
  { datetime := r.datetime, season := r.season, holiday := r.holiday,
    workingday := r.workingday, weather := r.weather, temp := r.temp,
    atemp := r.atemp, humidity := r.humidity, windspeed := r.windspeed,
    casual := r.casual, registered := r.registered, count := r.count }

/-- A raw scoring-partition row with the given timestamp and weather
fields; used to build the concrete rows of the boundary scenarios. -/
def mkRaw (ts : Timestamp) (season weather : Int)
    (temp humidity windspeed : Rat) : Row :=
  { datetime := ts, season := season, holiday := 0, workingday := 0,
    weather := weather, temp := temp, atemp := temp, humidity := humidity,
    windspeed := windspeed }

/-- 2011-01-07 07:00, a Friday (day_of_week 4). -/
def fridayMorningRow : Row := mkRaw ⟨2011, 1, 7, 7⟩ 1 1 (984/100) 81 13

/-- 2011-01-08 07:00, a Saturday (day_of_week 5). -/
def saturdayMorningRow : Row := mkRaw ⟨2011, 1, 8, 7⟩ 1 1 10 50 5

/-- A row whose `season` value 7 is outside the enumerated domain. -/
def badSeasonRow : Row := mkRaw ⟨2011, 1, 1, 0⟩ 7 1 10 50 5

/-- A row with `humidity = 0`, the admissible lower end of its range. -/
def zeroHumidityRow : Row := mkRaw ⟨2011, 1, 1, 5⟩ 1 1 10 0 5

/-- A row with `windspeed = 0`. -/
def zeroWindspeedRow : Row := mkRaw ⟨2011, 1, 1, 5⟩ 1 1 10 50 0

/-- Timestamps of the negative-prediction scenario. -/
def sampleTimestamps : List String :=
  ["2011-01-20 00:00:00", "2011-01-20 01:00:00", "2011-01-20 02:00:00"]

/-- Predictions of the negative-prediction scenario: [-5.2, 0.0, 42.7]. -/
def samplePredictions : List Rat := [-26/5, 0, 427/10]

/-- Two timestamps, for the length-mismatch scenario. -/
def mismatchTimestamps : List String :=
  ["2011-01-20 00:00:00", "2011-01-20 01:00:00"]

/-- Re-deriving a row whose derived columns were stripped gives the same
result: `enrichRow` reads raw fields only. -/
theorem enrichRow_stripDerived (r : Row) :
    enrichRow (stripDerived r) = enrichRow r := by
  cases r; rfl

/-- Re-enriching an enriched row recomputes every derived column to the
same value: raw fields are untouched and all derived columns are
overwritten from them. -/
theorem enrichRow_idem (r : Row) : enrichRow (enrichRow r) = enrichRow r := by
  cases r; rfl

/-- The submission table has one row per position of the longer input. -/
theorem format_submission_length (ts : List String) (ps : List Rat) :
    (format_submission ts ps).length = max ts.length ps.length := by
  simp [format_submission]

/-- Position `i` of the submission table: present iff `i` is below the
longer input's length, with each column read off positionally and the
count clipped at 0. -/
theorem format_submission_get (ts : List String) (ps : List Rat) (i : Nat) :
    (format_submission ts ps)[i]? =
      if i < max ts.length ps.length then
        some ⟨ts[i]?, (ps[i]?).map fun p => max 0 p⟩
      else none := by
  by_cases h : i < max ts.length ps.length
  · rw [if_pos h]
    simp only [format_submission]
    rw [List.getElem?_map, List.getElem?_range h]
    rfl
  · rw [if_neg h]
    simp only [format_submission]
    rw [List.getElem?_map,
      List.getElem?_eq_none (by simpa using Nat.not_lt.mp h)]
    rfl

/-- Claim C1: on equal-length inputs the submission formatter outputs
one record per prediction, in input order, whose count is
max(0, p) for the corresponding prediction p and whose datetime is the
corresponding timestamp. -/
theorem submission_clips_and_preserves_order (ts : List String) (ps : List Rat)
    (h : ts.length = ps.length) :
    (format_submission ts ps).length = ps.length ∧
    ∀ i : Nat,
      ((format_submission ts ps)[i]?).map SubmissionRow.count
          = (ps[i]?).map (fun p => some (max 0 p)) ∧
      ((format_submission ts ps)[i]?).map SubmissionRow.datetime
          = (ts[i]?).map some := by
  have hmax : max ts.length ps.length = ps.length := by rw [h, Nat.max_self]
  refine ⟨?_, fun i => ?_⟩
  · rw [format_submission_length, hmax]
  · rw [format_submission_get, hmax]
    by_cases hi : i < ps.length
    · have hts : i < ts.length := by rw [h]; exact hi
      rw [if_pos hi, List.getElem?_eq_getElem hi, List.getElem?_eq_getElem hts]
      exact ⟨rfl, rfl⟩
    · have h1 : ps[i]? = none := List.getElem?_eq_none (Nat.not_lt.mp hi)
      have h2 : ts[i]? = none :=
        List.getElem?_eq_none (by rw [h]; exact Nat.not_lt.mp hi)
      rw [if_neg hi, h1, h2]
      exact ⟨rfl, rfl⟩

/-- Claim C1 witness: predictions [-5.2, 0.0, 42.7] with three matching
timestamps format to counts [0.0, 0.0, 42.7]. -/
theorem submission_clips_witness :
    (format_submission sampleTimestamps samplePredictions).length = 3 ∧
    ((format_submission sampleTimestamps samplePredictions)[0]?).map
        SubmissionRow.count = some (some 0) ∧
    ((format_submission sampleTimestamps samplePredictions)[1]?).map
        SubmissionRow.count = some (some 0) ∧
    ((format_submission sampleTimestamps samplePredictions)[2]?).map
        SubmissionRow.count = some (some (427/10)) := by
  have h := submission_clips_and_preserves_order sampleTimestamps
    samplePredictions rfl
  refine ⟨h.1, ?_, ?_, ?_⟩
  · rw [(h.2 0).1]; norm_num [samplePredictions]
  · rw [(h.2 1).1]; norm_num [samplePredictions]
  · rw [(h.2 2).1]; norm_num [samplePredictions]

/-- Claim C2: `feature_engineering` (the spec's `enrich`) keeps the
length and order of its input, producing at each position exactly the
enrichment of the input row at that position, and the enrichment of a
row does not depend on any derived columns already present: stripping
them first changes nothing, so every derived field is a function of the
same row's raw fields only. -/
theorem enrich_length_order_rowlocal (rs : List Row) :
    (feature_engineering rs).length = rs.length ∧
    (∀ i : Nat, (feature_engineering rs)[i]? = (rs[i]?).map enrichRow) ∧
    ∀ r : Row, enrichRow (stripDerived r) = enrichRow r :=
  ⟨by simp [feature_engineering],
   fun i => by simp [feature_engineering, List.getElem?_map],
   fun r => enrichRow_stripDerived r⟩

/-- Claim C3: `is_rush_hour` is 1 iff the day of week is below 5 and the
hour lies in [7,9] or in [16,19]; it is 1 on 2011-01-07 07:00 (a Friday,
day_of_week 4) and 0 on 2011-01-08 07:00 (a Saturday, day_of_week 5). -/
theorem is_rush_hour_spec :
    (∀ r : Row, (enrichRow r).is_rush_hour = some 1 ↔
        dayOfWeek r.datetime < 5 ∧
          ((7 ≤ r.datetime.hour ∧ r.datetime.hour ≤ 9) ∨
            (16 ≤ r.datetime.hour ∧ r.datetime.hour ≤ 19))) ∧
    fridayMorningRow.datetime.hour = 7 ∧
    dayOfWeek fridayMorningRow.datetime = 4 ∧
    (enrichRow fridayMorningRow).is_rush_hour = some 1 ∧
    saturdayMorningRow.datetime.hour = 7 ∧
    dayOfWeek saturdayMorningRow.datetime = 5 ∧
    (enrichRow saturdayMorningRow).is_rush_hour = some 0 := by
  refine ⟨fun r => ?_, rfl, by decide, by decide, rfl, by decide, by decide⟩
  simp only [enrichRow]
  by_cases hd : dayOfWeek r.datetime < 5
  · by_cases hh : (7 ≤ r.datetime.hour ∧ r.datetime.hour ≤ 9) ∨
        (16 ≤ r.datetime.hour ∧ r.datetime.hour ≤ 19)
    · simp [hd, hh]
    · simp [hd, hh]
  · simp [hd]

/-- Claim C3 witness: the rush-hour criterion applied to the concrete
Friday 07:00 row. -/
theorem is_rush_hour_spec_witness :
    (enrichRow fridayMorningRow).is_rush_hour = some 1 :=
  (is_rush_hour_spec.1 fridayMorningRow).mpr (by decide)

/-- Claim C4 counterexample: the source bins with pandas' default
right-closed intervals, not with the right-open-except-last convention
the claim states: at the internal boundary 10 the code yields "cold"
while the claimed convention yields "mild". -/
theorem temp_bin_not_right_open :
    cut 10 tempBins tempLabels ≠ cutRightOpenExceptLast 10 tempBins tempLabels ∧
    cut 10 tempBins tempLabels = some "cold" ∧
    cutRightOpenExceptLast 10 tempBins tempLabels = some "mild" ∧
    saturdayMorningRow.temp = 10 ∧
    (enrichRow saturdayMorningRow).temp_bin = some (some "cold") := by
  refine ⟨by decide, by decide, by decide, rfl, by decide⟩

/-- Claim C4 (amended): the three binnings use left-open, right-closed
intervals: a value exactly on an internal upper bound goes to the lower
of the two surrounding bins, the final upper bound is included in the
last bin, and the lowest boundary is excluded from every bin (values
there get a null bin); in particular temp 10.0 bins to "cold" and temp
50.0 to "hot". -/
theorem binning_right_closed_boundaries :
    (∀ r : Row,
      (enrichRow r).temp_bin = some (cut r.temp tempBins tempLabels) ∧
      (enrichRow r).humidity_bin = some (cut r.humidity humidityBins levelLabels) ∧
      (enrichRow r).windspeed_bin = some (cut r.windspeed windspeedBins levelLabels)) ∧
    cut 0 tempBins tempLabels = some "very_cold" ∧
    cut 10 tempBins tempLabels = some "cold" ∧
    cut 20 tempBins tempLabels = some "mild" ∧
    cut 30 tempBins tempLabels = some "warm" ∧
    cut 50 tempBins tempLabels = some "hot" ∧
    cut (-20) tempBins tempLabels = none ∧
    cut 25 humidityBins levelLabels = some "low" ∧
    cut 50 humidityBins levelLabels = some "medium" ∧
    cut 75 humidityBins levelLabels = some "high" ∧
    cut 100 humidityBins levelLabels = some "very_high" ∧
    cut 0 humidityBins levelLabels = none ∧
    cut 10 windspeedBins levelLabels = some "low" ∧
    cut 20 windspeedBins levelLabels = some "medium" ∧
    cut 30 windspeedBins levelLabels = some "high" ∧
    cut 100 windspeedBins levelLabels = some "very_high" ∧
    cut 0 windspeedBins levelLabels = none := by
  exact ⟨fun r => ⟨rfl, rfl, rfl⟩, by decide⟩

/-- Claim C5 counterexample: `feature_engineering` raises no error on a
row whose `season` is 7, outside the enumerated domain; it produces an
enriched output for the sequence and threads the out-of-range value
into `weather_season` unchanged. -/
theorem enrich_no_range_error :
    badSeasonRow.season = 7 ∧
    (feature_engineering [badSeasonRow]).length = 1 ∧
    (feature_engineering [badSeasonRow]).map Row.weather_season
      = [some "1_7"] := by
  refine ⟨rfl, rfl, by decide⟩

/-- Claim C5 (amended): `feature_engineering` performs no domain
validation: a sequence containing a row whose season or weather lies
outside {1,2,3,4} is still enriched row by row, the out-of-domain value
flowing into `weather_season` by plain string concatenation. -/
theorem enrich_out_of_domain_still_enriches (r : Row)
    (_h : r.season < 1 ∨ 4 < r.season ∨ r.weather < 1 ∨ 4 < r.weather) :
    feature_engineering [r] = [enrichRow r] ∧
    (enrichRow r).weather_season
      = some (toString r.weather ++ "_" ++ toString r.season) :=
  ⟨rfl, rfl⟩

/-- Claim C5 witness: the amended claim at the concrete season-7 row. -/
theorem enrich_out_of_domain_witness :
    feature_engineering [badSeasonRow] = [enrichRow badSeasonRow] ∧
    (enrichRow badSeasonRow).weather_season
      = some (toString badSeasonRow.weather ++ "_" ++ toString badSeasonRow.season) :=
  enrich_out_of_domain_still_enriches badSeasonRow (Or.inr (Or.inl (by decide)))

/-- Claim C6 counterexample: on two timestamps and one prediction the
submission construction does not fail: it emits two records, the second
padded with a null count - partial output on a length mismatch. -/
theorem format_submission_mismatch_no_error :
    mismatchTimestamps.length ≠ ([(5 : Rat)] : List Rat).length ∧
    (format_submission mismatchTimestamps [(5 : Rat)]).length = 2 ∧
    (format_submission mismatchTimestamps [(5 : Rat)]).map SubmissionRow.count
      = [some 5, none] := by
  refine ⟨by decide, by rw [format_submission_length]; rfl, ?_⟩
  have h0 := format_submission_get mismatchTimestamps [(5 : Rat)] 0
  have h1 := format_submission_get mismatchTimestamps [(5 : Rat)] 1
  have h2 := format_submission_get mismatchTimestamps [(5 : Rat)] 2
  refine List.ext_getElem? fun i => ?_
  rw [List.getElem?_map]
  match i with
  | 0 => rw [h0]; norm_num [mismatchTimestamps]
  | 1 => rw [h1]; norm_num [mismatchTimestamps]
  | n + 2 =>
      rw [format_submission_get]
      norm_num [mismatchTimestamps]

/-- Claim C6 (amended): the submission construction checks no lengths:
for any inputs it aligns the two columns by position, emitting
max(n, m) records with the missing side of each unmatched position
null; mismatched lengths therefore yield padded partial records, not a
failure. -/
theorem format_submission_alignment (ts : List String) (ps : List Rat) :
    (format_submission ts ps).length = max ts.length ps.length ∧
    ∀ i : Nat, (format_submission ts ps)[i]? =
      if i < max ts.length ps.length then
        some ⟨ts[i]?, (ps[i]?).map fun p => max 0 p⟩
      else none :=
  ⟨format_submission_length ts ps, fun i => format_submission_get ts ps i⟩

/-- Claim C7: `feature_engineering` has no side effect on its argument:
the body's first statement rebinds the parameter to a fresh copy, so
after the call the caller's dataframe is unchanged and the returned
dataframe is the enrichment computed on the copy. -/
theorem feature_engineering_preserves_input (df : List Row) :
    (feature_engineering_call df).1 = df ∧
    (feature_engineering_call df).2 = feature_engineering df :=
  ⟨rfl, rfl⟩

/-- Claim C8: `feature_engineering` is idempotent: applied to an already
enriched batch it recomputes every derived column to exactly its
existing value, so the double application equals the single one (on all
columns, in particular on all derived columns). -/
theorem enrich_idempotent (rs : List Row) :
    feature_engineering (feature_engineering rs) = feature_engineering rs := by
  simp only [feature_engineering, List.map_map]
  exact List.map_congr_left fun r _ => enrichRow_idem r

/-- Claim C9: a row with humidity exactly 0 (resp. windspeed exactly 0)
gets a null humidity_bin (resp. windspeed_bin), not the label "low",
because the lowest boundary 0 is excluded from every bin. -/
theorem zero_boundary_bins_null (r : Row) :
    (r.humidity = 0 → (enrichRow r).humidity_bin = some none) ∧
    (r.windspeed = 0 → (enrichRow r).windspeed_bin = some none) := by
  constructor
  · intro h
    simp only [enrichRow]
    rw [h]
    decide
  · intro h
    simp only [enrichRow]
    rw [h]
    decide

/-- Claim C9 witness: the zero-humidity and zero-windspeed rows. -/
theorem zero_boundary_bins_null_witness :
    (enrichRow zeroHumidityRow).humidity_bin = some none ∧
    (enrichRow zeroWindspeedRow).windspeed_bin = some none :=
  ⟨(zero_boundary_bins_null zeroHumidityRow).1 rfl,
   (zero_boundary_bins_null zeroWindspeedRow).2 rfl⟩

/-- Claim C10: the rush-hour and weekend flags are never both set: one
of them is always 0, since rush hour requires day_of_week below 5 and
weekend requires day_of_week at least 5. -/
theorem rush_hour_weekend_exclusive (r : Row) :
    (enrichRow r).is_rush_hour = some 0 ∨ (enrichRow r).is_weekend = some 0 := by
  by_cases hd : dayOfWeek r.datetime < 5
  · right
    have hw : ¬ 5 ≤ dayOfWeek r.datetime := Nat.not_le.mpr hd
    simp [enrichRow, hw]
  · left
    simp [enrichRow, hd]

end BikeSharing
